import Mathlib

/-!
Shallow embedding of the seo-inspector-mcp analysis engine.

The embedding models the richest analyzer revision in the repository:
`analyzeHtml` (src/analyzers/html-analyzer.js) and `detectTargetKeywords`
together with `simpleStem` (src/analyzers/keyword-analyzer.js).

HTML parsing is an external collaborator in the source (cheerio); the
embedding represents a parsed document as a record (`Doc`) of exactly the
facts the analyzer reads through the selector capability: title text, meta
attribute values, heading texts, image attributes, JSON-LD parse outcomes,
script src attributes, and the body text.  Words are lists of characters;
JavaScript string values read from attributes are `Option String`
(`none` = attribute absent), and JavaScript truthiness of such a value is
"present and nonempty".  JavaScript numbers that stay integral are `Nat`;
the bigram score, which is multiplied by 1.5, is a rational (those
products are exact in IEEE doubles over this range, so `Rat` is faithful).
-/

namespace Seo

/-- Character class of the JavaScript regex `\s` (modelled as Unicode whitespace). -/
def isWs (c : Char) : Bool := c.isWhitespace

/-- Character class of the JavaScript regex `\w`. -/
def isWordChar (c : Char) : Bool := c.isAlphanum || c == '_'

/-- Lowercase every character of a word (JavaScript `toLowerCase`). -/
def lowerW (w : List Char) : List Char := w.map Char.toLower

/-- Worker for `jsSplitWS`: `acc` is the current chunk reversed, `inRun` says
whether we are inside a whitespace run (so further whitespace is absorbed
into the same separator, as the regex `\s+` does). -/
def jsSplitGo : List Char → List Char → Bool → List (List Char)
  | [], acc, _ => [acc.reverse]
  | c :: rest, acc, inRun =>
    if isWs c then
      if inRun then jsSplitGo rest acc true
      else acc.reverse :: jsSplitGo rest [] true
    else jsSplitGo rest (c :: acc) false

/-- JavaScript `str.split(/\s+/)`: split on maximal whitespace runs; the empty
string yields `[""]`, and leading/trailing whitespace yields an empty
boundary piece. -/
def jsSplitWS (s : List Char) : List (List Char) := jsSplitGo s [] false

/-- JavaScript `String.prototype.trim`. -/
def jsTrim (w : List Char) : List Char :=
  ((w.dropWhile isWs).reverse.dropWhile isWs).reverse

/-- JavaScript token cleaning as applied to body tokens: `replace` drops
every character outside the `\w` and `\s` classes, then `trim`. -/
def cleanWord (w : List Char) : List Char :=
  jsTrim (w.filter (fun c => isWordChar c || isWs c))

/-- JavaScript `String.prototype.split(sep)` for a one-character separator
(used on the space-joined normalized phrase). -/
def splitOnChar (sep : Char) : List Char → List (List Char)
  | [] => [[]]
  | c :: rest =>
    if c = sep then [] :: splitOnChar sep rest
    else
      match splitOnChar sep rest with
      | [] => [[c]]
      | piece :: pieces => (c :: piece) :: pieces

/-- JavaScript truthiness of a possibly-absent string value
(`undefined` and the empty string are falsy). -/
def truthy : Option String → Bool
  | none => false
  | some s => !(s == "")

/-- JavaScript `a || dflt` for a possibly-absent string value. -/
def jsOr (o : Option String) (dflt : String) : String :=
  if truthy o then o.getD "" else dflt

/-- JavaScript `big.includes(small)`: substring containment, by scanning
every suffix of `big` for `small` as a prefix. -/
def containsSub (big small : List Char) : Bool :=
  if small.isPrefixOf big then true
  else
    match big with
    | [] => false
    | _ :: rest => containsSub rest small

/-- JavaScript `String.prototype.endsWith` on character lists. -/
def endsWith (w suf : List Char) : Bool := suf.isSuffixOf w

/-- JavaScript `word.slice(0, -n)`: drop the last `n` characters. -/
def dropLastN (w : List Char) (n : Nat) : List Char := w.take (w.length - n)

/-- The stemmer as written in the source (`simpleStem` in
src/analyzers/keyword-analyzer.js): lowercase, then an if-chain over the
endings in source order ing, ly, es, s, ed, er, ment, tion, stripping the
first ending that matches and returning the word unchanged otherwise. -/
def simpleStem (w : List Char) : List Char :=
  let word := lowerW w
  if endsWith word "ing".toList then dropLastN word 3
  else if endsWith word "ly".toList then dropLastN word 2
  else if endsWith word "es".toList then dropLastN word 2
  else if endsWith word "s".toList then dropLastN word 1
  else if endsWith word "ed".toList then dropLastN word 2
  else if endsWith word "er".toList then dropLastN word 2
  else if endsWith word "ment".toList then dropLastN word 4
  else if endsWith word "tion".toList then dropLastN word 4
  else word

/-- Modelled from the spec: the stemmer as the specification words it, a
rule table applied longest-match-first over the endings
ment, tion, ing, ed, er, ly, es, s, applying only the first matching rule.
Defined for comparison with `simpleStem`, which is the code version. -/
def specStem (w : List Char) : List Char :=
  let word := lowerW w
  if endsWith word "ment".toList then dropLastN word 4
  else if endsWith word "tion".toList then dropLastN word 4
  else if endsWith word "ing".toList then dropLastN word 3
  else if endsWith word "ed".toList then dropLastN word 2
  else if endsWith word "er".toList then dropLastN word 2
  else if endsWith word "ly".toList then dropLastN word 2
  else if endsWith word "es".toList then dropLastN word 2
  else if endsWith word "s".toList then dropLastN word 1
  else word

section SortByKey

variable {α : Type} {β : Type} [LinearOrder β]

/-- The descending-by-key ordering realised by the source comparator
`(a, b) => b.key - a.key` handed to `Array.prototype.sort`. -/
def keyDescRel (key : α → β) : α → α → Prop := fun a b => key b ≤ key a

instance (key : α → β) : DecidableRel (keyDescRel key) := fun a b =>
  inferInstanceAs (Decidable (key b ≤ key a))

instance (key : α → β) : IsTotal α (keyDescRel key) :=
  ⟨fun a b => le_total (key b) (key a)⟩

instance (key : α → β) : IsTrans α (keyDescRel key) :=
  ⟨fun _ _ _ hab hbc => le_trans hbc hab⟩

/-- Model of JavaScript `Array.prototype.sort` with comparator
`(a, b) => key(b) - key(a)`.  ECMAScript requires the sort to be stable, and
a stable sort for a fixed total preorder has a unique output, so stable
insertion sort is a faithful model of whatever stable algorithm the engine
uses. -/
def sortByKeyDesc (key : α → β) (l : List α) : List α :=
  l.insertionSort (keyDescRel key)

theorem sortByKeyDesc_sorted (key : α → β) (l : List α) :
    List.Sorted (keyDescRel key) (sortByKeyDesc key l) :=
  List.sorted_insertionSort _ l

theorem sortByKeyDesc_perm (key : α → β) (l : List α) :
    List.Perm (sortByKeyDesc key l) l :=
  List.perm_insertionSort _ l

theorem filter_orderedInsert_key (key : α → β) (v : β) (a : α) (l : List α) :
    (List.orderedInsert (keyDescRel key) a l).filter (fun x => decide (key x = v)) =
      if key a = v then a :: l.filter (fun x => decide (key x = v))
      else l.filter (fun x => decide (key x = v)) := by
  induction l with
  | nil =>
    simp only [List.orderedInsert, List.filter]
    split <;> rename_i hav
    · rw [if_pos (of_decide_eq_true hav)]
    · rw [if_neg (of_decide_eq_false hav)]
  | cons b bs ih =>
    simp only [List.orderedInsert]
    by_cases hab : keyDescRel key a b
    · rw [if_pos hab]
      by_cases hav : key a = v
      · simp [List.filter, hav]
      · simp [List.filter, hav]
    · rw [if_neg hab]
      have hlt : key a < key b := lt_of_not_le hab
      by_cases hav : key a = v
      · have hbv : ¬ key b = v := by
          intro hb
          rw [hav, hb] at hlt
          exact absurd hlt (lt_irrefl v)
        simp only [List.filter_cons, ih]
        simp [hav, hbv]
      · simp only [List.filter_cons, ih]
        simp [hav]

/-- Stability of the modelled sort, phrased as the claim does: within one
key value, the sorted list preserves the original (detection) order. -/
theorem filter_sortByKeyDesc (key : α → β) (v : β) (l : List α) :
    (sortByKeyDesc key l).filter (fun x => decide (key x = v)) =
      l.filter (fun x => decide (key x = v)) := by
  induction l with
  | nil => rfl
  | cons x xs ih =>
    simp only [sortByKeyDesc, List.insertionSort] at *
    rw [filter_orderedInsert_key key v x]
    by_cases hxv : key x = v
    · simp [hxv, ih]
    · simp [hxv, ih]

/-- In a descending-sorted list, an element with strictly larger key is
ranked strictly earlier. -/
theorem indexOf_lt_of_key_gt (key : α → β) [DecidableEq α] {l : List α}
    (hs : List.Sorted (keyDescRel key) l) {a b : α}
    (ha : a ∈ l) (hb : b ∈ l) (h : key b < key a) :
    l.indexOf a < l.indexOf b := by
  have hal : l.indexOf a < l.length := List.indexOf_lt_length.mpr ha
  have hbl : l.indexOf b < l.length := List.indexOf_lt_length.mpr hb
  by_contra hle
  push_neg at hle
  rcases lt_or_eq_of_le hle with hlt | heq
  · have := List.pairwise_iff_get.mp hs ⟨l.indexOf b, hbl⟩ ⟨l.indexOf a, hal⟩ hlt
    rw [List.indexOf_get, List.indexOf_get] at this
    exact absurd (lt_of_lt_of_le h this) (lt_irrefl _)
  · have : l.get ⟨l.indexOf b, hbl⟩ = l.get ⟨l.indexOf a, hal⟩ := by
      congr 1
      exact Fin.ext heq
    rw [List.indexOf_get, List.indexOf_get] at this
    rw [this] at h
    exact absurd h (lt_irrefl _)

end SortByKey

theorem isSuffixOf_getLast {w suf : List Char} {c : Char}
    (hsuf : suf.getLast? = some c) (h : suf.isSuffixOf w = true) :
    w.getLast? = some c := by
  have hsfx : suf <:+ w := List.isSuffixOf_iff_suffix.mp h
  rcases hsfx with ⟨t, ht⟩
  rw [← ht, List.getLast?_append, hsuf]
  rfl

theorem endsWith_eq_false (c c' : Char) {w suf : List Char}
    (hw : w.getLast? = some c) (hsuf : suf.getLast? = some c') (hne : c ≠ c') :
    endsWith w suf = false := by
  by_contra h
  rw [Bool.not_eq_false] at h
  have := isSuffixOf_getLast hsuf h
  rw [hw] at this
  exact hne (Option.some.inj this)

theorem stem_chains_eq (v : List Char) :
    (if endsWith v "ing".toList then dropLastN v 3
     else if endsWith v "ly".toList then dropLastN v 2
     else if endsWith v "es".toList then dropLastN v 2
     else if endsWith v "s".toList then dropLastN v 1
     else if endsWith v "ed".toList then dropLastN v 2
     else if endsWith v "er".toList then dropLastN v 2
     else if endsWith v "ment".toList then dropLastN v 4
     else if endsWith v "tion".toList then dropLastN v 4
     else v)
    =
    (if endsWith v "ment".toList then dropLastN v 4
     else if endsWith v "tion".toList then dropLastN v 4
     else if endsWith v "ing".toList then dropLastN v 3
     else if endsWith v "ed".toList then dropLastN v 2
     else if endsWith v "er".toList then dropLastN v 2
     else if endsWith v "ly".toList then dropLastN v 2
     else if endsWith v "es".toList then dropLastN v 2
     else if endsWith v "s".toList then dropLastN v 1
     else v) := by
  by_cases hment : endsWith v ('m' :: 'e' :: 'n' :: 't' :: []) = true
  · have hlast : v.getLast? = some 't' := isSuffixOf_getLast (by decide) hment
    have hxing : endsWith v ('i' :: 'n' :: 'g' :: []) = false :=
      endsWith_eq_false 't' 'g' hlast (by decide) (by decide)
    have hxly : endsWith v ('l' :: 'y' :: []) = false :=
      endsWith_eq_false 't' 'y' hlast (by decide) (by decide)
    have hxes : endsWith v ('e' :: 's' :: []) = false :=
      endsWith_eq_false 't' 's' hlast (by decide) (by decide)
    have hxs : endsWith v ('s' :: []) = false :=
      endsWith_eq_false 't' 's' hlast (by decide) (by decide)
    have hxed : endsWith v ('e' :: 'd' :: []) = false :=
      endsWith_eq_false 't' 'd' hlast (by decide) (by decide)
    have hxer : endsWith v ('e' :: 'r' :: []) = false :=
      endsWith_eq_false 't' 'r' hlast (by decide) (by decide)
    simp [hment, hxing, hxly, hxes, hxs, hxed, hxer]
  · rw [Bool.not_eq_true] at hment
    by_cases htion : endsWith v ('t' :: 'i' :: 'o' :: 'n' :: []) = true
    · have hlast : v.getLast? = some 'n' := isSuffixOf_getLast (by decide) htion
      have hxing : endsWith v ('i' :: 'n' :: 'g' :: []) = false :=
        endsWith_eq_false 'n' 'g' hlast (by decide) (by decide)
      have hxly : endsWith v ('l' :: 'y' :: []) = false :=
        endsWith_eq_false 'n' 'y' hlast (by decide) (by decide)
      have hxes : endsWith v ('e' :: 's' :: []) = false :=
        endsWith_eq_false 'n' 's' hlast (by decide) (by decide)
      have hxs : endsWith v ('s' :: []) = false :=
        endsWith_eq_false 'n' 's' hlast (by decide) (by decide)
      have hxed : endsWith v ('e' :: 'd' :: []) = false :=
        endsWith_eq_false 'n' 'd' hlast (by decide) (by decide)
      have hxer : endsWith v ('e' :: 'r' :: []) = false :=
        endsWith_eq_false 'n' 'r' hlast (by decide) (by decide)
      simp [hment, htion, hxing, hxly, hxes, hxs, hxed, hxer]
    · rw [Bool.not_eq_true] at htion
      by_cases hing : endsWith v ('i' :: 'n' :: 'g' :: []) = true
      · simp [hment, htion, hing]
      · rw [Bool.not_eq_true] at hing
        by_cases hed : endsWith v ('e' :: 'd' :: []) = true
        · have hlast : v.getLast? = some 'd' := isSuffixOf_getLast (by decide) hed
          have hxly : endsWith v ('l' :: 'y' :: []) = false :=
            endsWith_eq_false 'd' 'y' hlast (by decide) (by decide)
          have hxes : endsWith v ('e' :: 's' :: []) = false :=
            endsWith_eq_false 'd' 's' hlast (by decide) (by decide)
          have hxs : endsWith v ('s' :: []) = false :=
            endsWith_eq_false 'd' 's' hlast (by decide) (by decide)
          simp [hment, htion, hing, hed, hxly, hxes, hxs]
        · rw [Bool.not_eq_true] at hed
          by_cases her : endsWith v ('e' :: 'r' :: []) = true
          · have hlast : v.getLast? = some 'r' := isSuffixOf_getLast (by decide) her
            have hxly : endsWith v ('l' :: 'y' :: []) = false :=
              endsWith_eq_false 'r' 'y' hlast (by decide) (by decide)
            have hxes : endsWith v ('e' :: 's' :: []) = false :=
              endsWith_eq_false 'r' 's' hlast (by decide) (by decide)
            have hxs : endsWith v ('s' :: []) = false :=
              endsWith_eq_false 'r' 's' hlast (by decide) (by decide)
            simp [hment, htion, hing, hed, her, hxly, hxes, hxs]
          · rw [Bool.not_eq_true] at her
            by_cases hly : endsWith v ('l' :: 'y' :: []) = true
            · simp [hment, htion, hing, hed, her, hly]
            · rw [Bool.not_eq_true] at hly
              by_cases hes : endsWith v ('e' :: 's' :: []) = true
              · simp [hment, htion, hing, hed, her, hly, hes]
              · rw [Bool.not_eq_true] at hes
                by_cases hs : endsWith v ('s' :: []) = true
                · simp [hment, htion, hing, hed, her, hly, hes, hs]
                · rw [Bool.not_eq_true] at hs
                  simp [hment, htion, hing, hed, her, hly, hes, hs]

example : simpleStem "payments".toList = "payment".toList := by decide
example : simpleStem "Nation".toList = "na".toList := by decide
example : simpleStem "running".toList = "runn".toList := by decide
example : simpleStem "flies".toList = "fli".toList := by decide
example : jsSplitWS "".toList = ["".toList] := by decide
example : jsSplitWS " a  b ".toList = ["", "a", "b", ""].map String.toList := by decide
example : splitOnChar ' ' "ab cd".toList = ["ab", "cd"].map String.toList := by decide

/-! ## The parsed document

`Doc` is the record of facts the analyzer reads from the cheerio handle:
one field per selector query performed by `analyzeHtml` and
`detectTargetKeywords`.  Attribute reads are `Option String` (`none` =
attribute absent); `jsonLdValid` records, per JSON-LD script block in
document order, whether `JSON.parse` succeeds on it (the parser itself is
the external collaborator). -/

structure Img where
  alt : Option String
  role : Option String
  src : Option String
deriving DecidableEq, Repr

structure Doc where
  title : String
  metaDescription : Option String
  h1Texts : List String
  h2Texts : List String
  h3Count : Nat
  robotsContent : Option String
  canonicalUrl : Option String
  ogTitle : Option String
  ogDescription : Option String
  ogImage : Option String
  twitterCard : Option String
  twitterTitle : Option String
  twitterDescription : Option String
  twitterImage : Option String
  hasRootId : Bool
  hasAppId : Bool
  hasDataReactRoot : Bool
  emptyDivCount : Nat
  scriptSrcs : List (Option String)
  imgs : List Img
  jsonLdValid : List Bool
  hasViewport : Bool
  bodyText : String
deriving DecidableEq, Repr

/-! ## Keyword scorer (`detectTargetKeywords`, src/analyzers/keyword-analyzer.js) -/

/-- The fixed stopword list `commonWords` of the source. -/
def commonWords : List (List Char) :=
  ["a", "an", "the", "and", "or", "but", "in", "on", "at", "to", "for",
   "with", "by", "about", "as", "of", "from", "is", "are", "was", "were",
   "be", "been", "being", "have", "has", "had", "do", "does", "did",
   "will", "would", "should", "could", "can", "may", "might", "must",
   "shall", "this", "that", "these", "those", "it", "they", "them",
   "their", "we", "us", "our", "you", "your", "he", "him", "his", "she",
   "her", "hers", "i", "me", "my", "mine", "who", "whom", "whose",
   "which", "what", "when", "where", "why", "how", "all", "any", "both",
   "each", "few", "more", "most", "some", "such", "no", "nor", "not",
   "only", "own", "same", "so", "than", "too", "very"].map String.toList

/-- Body text lowercased and then split on whitespace runs. -/
def bodyWords (d : Doc) : List (List Char) :=
  jsSplitWS (lowerW d.bodyText.toList)

/-- `title ? title.toLowerCase().split(/\s+/) : []` (truthiness of a plain
string: nonempty). -/
def titleWords (title : String) : List (List Char) :=
  if title == "" then [] else jsSplitWS (lowerW title.toList)

/-- `metaDescription ? metaDescription.toLowerCase().split(/\s+/) : []`. -/
def metaWords (metaDescription : Option String) : List (List Char) :=
  if truthy metaDescription then jsSplitWS (lowerW (metaDescription.getD "").toList)
  else []

/-- Words pushed from every `<h1>` text. -/
def h1Words (d : Doc) : List (List Char) :=
  d.h1Texts.flatMap (fun t => jsSplitWS (lowerW t.toList))

/-- Words pushed from every `<h2>` text. -/
def h2Words (d : Doc) : List (List Char) :=
  d.h2Texts.flatMap (fun t => jsSplitWS (lowerW t.toList))

/-- `importantWords = [...titleWords, ...metaWords, ...h1Words, ...h2Words]`. -/
def importantWords (d : Doc) (title : String) (metaDescription : Option String) :
    List (List Char) :=
  titleWords title ++ metaWords metaDescription ++ h1Words d ++ h2Words d

/-- Increment the count of `k` in an association list, preserving
JavaScript object key insertion order (`wordCounts[k] = (wordCounts[k] || 0) + 1`). -/
def bumpCount (m : List (List Char × Nat)) (k : List Char) : List (List Char × Nat) :=
  match m with
  | [] => [(k, 1)]
  | (k2, n) :: rest =>
    if k = k2 then (k2, n + 1) :: rest else (k2, n) :: bumpCount rest k

/-- Association-list lookup (JavaScript object property read). -/
def lookupA (m : List (List Char × γ)) (k : List Char) : Option γ :=
  match m with
  | [] => none
  | (k2, v) :: rest => if k = k2 then some v else lookupA rest k

/-- Set `m[k] = v`, updating in place or appending a new key. -/
def setA (m : List (List Char × γ)) (k : List Char) (v : γ) : List (List Char × γ) :=
  match m with
  | [] => [(k, v)]
  | (k2, v2) :: rest =>
    if k = k2 then (k2, v) :: rest else (k2, v2) :: setA rest k v

/-- `words.filter((w) => w === x).length` over the raw (uncleaned) token list. -/
def rawCount (ws : List (List Char)) (x : List Char) : Nat :=
  (ws.filter (fun w => w == x)).length

/-- The filter `cleanWord && cleanWord.length > 3 && !commonWords.includes(cleanWord)`
deciding whether a raw body token contributes a unigram occurrence. -/
def eligibleWord (w : List Char) : Bool :=
  let cw := cleanWord w
  !(cw == []) && decide (cw.length > 3) && !(commonWords.contains cw)

/-- One iteration of the `words.forEach` pass filling `wordCounts` and
`stemmedWordMap`. -/
def wordPassStep (ws : List (List Char))
    (st : List (List Char × Nat) × List (List Char × List Char))
    (word : List Char) :
    List (List Char × Nat) × List (List Char × List Char) :=
  let cw := cleanWord word
  if eligibleWord word then
    let stem := simpleStem cw
    let counts := bumpCount st.1 stem
    let cur := lookupA st.2 stem
    let shouldSet : Bool :=
      match cur with
      | none => true
      | some v => v == [] || decide (rawCount ws cw > rawCount ws v)
    let m := if shouldSet then setA st.2 stem cw else st.2
    (counts, m)
  else st

/-- The `wordCounts` object and the `stemmedWordMap` object after the
`forEach` pass over the body words. -/
def wordPass (d : Doc) : List (List Char × Nat) × List (List Char × List Char) :=
  (bodyWords d).foldl (wordPassStep (bodyWords d)) ([], [])

/-- One iteration of the adjacent-pair loop filling `phraseCounts` and
`originalPhraseMap`. -/
def phrasePassStep (st : List (List Char × Nat) × List (List Char × List Char))
    (pair : List Char × List Char) :
    List (List Char × Nat) × List (List Char × List Char) :=
  let word1 := cleanWord pair.1
  let word2 := cleanWord pair.2
  if word1 ≠ [] ∧ word2 ≠ [] ∧ word1.length > 2 ∧ word2.length > 2 ∧
      ¬ commonWords.contains word1 ∧ ¬ commonWords.contains word2 then
    let phrase := word1 ++ ' ' :: word2
    let normalizedPhrase := simpleStem word1 ++ ' ' :: simpleStem word2
    let counts := bumpCount st.1 normalizedPhrase
    let cur := lookupA st.2 normalizedPhrase
    let absent : Bool :=
      match cur with
      | none => true
      | some v => v == []
    let m := if absent then setA st.2 normalizedPhrase phrase else st.2
    (counts, m)
  else st

/-- The `phraseCounts` object and the `originalPhraseMap` object after the
loop over adjacent body-word pairs. -/
def phrasePass (d : Doc) : List (List Char × Nat) × List (List Char × List Char) :=
  ((bodyWords d).zip (bodyWords d).tail).foldl phrasePassStep ([], [])

structure WordCand where
  word : List Char
  score : Nat
  densityNum : Nat
  densityDen : Nat
  inTitle : Bool
  inMetaDescription : Bool
  inH1 : Bool
  inH2 : Bool
deriving DecidableEq, Repr

structure PhraseCand where
  phrase : List Char
  score2 : Nat
  densityNum : Nat
  densityDen : Nat
  inTitle : Bool
  inMetaDescription : Bool
  inH1 : Bool
  inH2 : Bool
deriving DecidableEq, Repr

/-- Build the scored unigram candidate for one stem, mirroring the
sequential `score` accumulation of the source.  Density is kept as the
exact pair (count times 100, total words); the source formats
`(count / totalWords) * 100` with `toFixed(2)`, a display concern not
modelled. -/
def buildWordCand (d : Doc) (title : String) (metaDescription : Option String)
    (counts : List (List Char × Nat)) (m : List (List Char × List Char))
    (stem : List Char) : WordCand :=
  let freq := (lookupA counts stem).getD 0
  let originalWord := (lookupA m stem).getD []
  let stemmedImportantWords := (importantWords d title metaDescription).map simpleStem
  let score := freq
  let score := if stemmedImportantWords.contains stem then score + 10 else score
  let inT := ((titleWords title).map simpleStem).contains stem
  let inM := ((metaWords metaDescription).map simpleStem).contains stem
  let in1 := ((h1Words d).map simpleStem).contains stem
  let in2 := ((h2Words d).map simpleStem).contains stem
  let score := if inT then score + 10 else score
  let score := if inM then score + 5 else score
  let score := if in1 then score + 8 else score
  let score := if in2 then score + 6 else score
  { word := originalWord, score := score,
    densityNum := freq * 100, densityDen := (bodyWords d).length,
    inTitle := inT, inMetaDescription := inM, inH1 := in1, inH2 := in2 }

/-- `scoredWords`: one candidate per key of `wordCounts`, in key order. -/
def scoredWords (d : Doc) (title : String) (metaDescription : Option String) :
    List WordCand :=
  let st := wordPass d
  (st.1.map Prod.fst).map (buildWordCand d title metaDescription st.1 st.2)

/-- Build the scored bigram candidate for one normalized phrase.  The
source computes `score = count * 1.5` plus integer boosts; every such
value is an exact multiple of one half (exactly representable in IEEE
doubles), so `score2` stores twice the source score as a natural
number - an order-preserving, exact integral encoding. -/
def buildPhraseCand (d : Doc) (title : String) (metaDescription : Option String)
    (counts : List (List Char × Nat)) (m : List (List Char × List Char))
    (normalizedPhrase : List Char) : PhraseCand :=
  let freq := (lookupA counts normalizedPhrase).getD 0
  let originalPhrase := (lookupA m normalizedPhrase).getD []
  let phraseWords := splitOnChar ' ' normalizedPhrase
  let inT := !(title == "") &&
    phraseWords.all (fun pw => containsSub (lowerW title.toList) pw)
  let inM := truthy metaDescription &&
    phraseWords.all (fun pw => containsSub (lowerW (metaDescription.getD "").toList) pw)
  let in1 := d.h1Texts.any (fun t =>
    phraseWords.all (fun pw => containsSub (lowerW t.toList) pw))
  let in2 := d.h2Texts.any (fun t =>
    phraseWords.all (fun pw => containsSub (lowerW t.toList) pw))
  let score2 := freq * 3
  let score2 := if inT then score2 + 30 else score2
  let score2 := if inM then score2 + 20 else score2
  let score2 := if in1 then score2 + 24 else score2
  let score2 := if in2 then score2 + 16 else score2
  { phrase := originalPhrase, score2 := score2,
    densityNum := freq * 100, densityDen := (bodyWords d).length - 1,
    inTitle := inT, inMetaDescription := inM, inH1 := in1, inH2 := in2 }

/-- `scoredPhrases`: one candidate per key of `phraseCounts`, in key order. -/
def scoredPhrases (d : Doc) (title : String) (metaDescription : Option String) :
    List PhraseCand :=
  let st := phrasePass d
  (st.1.map Prod.fst).map (buildPhraseCand d title metaDescription st.1 st.2)

/-- `topWords`: sort by score descending (stable) and take the first 5. -/
def topWords (d : Doc) (title : String) (metaDescription : Option String) :
    List WordCand :=
  (sortByKeyDesc WordCand.score (scoredWords d title metaDescription)).take 5

/-- `topPhrases`: sort by score descending (stable) and take the first 5. -/
def topPhrases (d : Doc) (title : String) (metaDescription : Option String) :
    List PhraseCand :=
  (sortByKeyDesc PhraseCand.score2 (scoredPhrases d title metaDescription)).take 5

structure PlacementAnalysis where
  primaryPhrase : List Char
  inTitle : Bool
  inMetaDescription : Bool
  inH1 : Bool
  inH2 : Bool
  missingFrom : List String
deriving DecidableEq, Repr

structure KeywordSummary where
  primaryPhrase : Option (List Char)
  secondaryPhrases : List (List Char)
  topSingleWords : List (List Char)
deriving DecidableEq, Repr

structure KeywordAnalysis where
  singleWords : List WordCand
  phrases : List PhraseCand
  placementAnalysis : PlacementAnalysis
  keywordSummary : KeywordSummary
deriving DecidableEq, Repr

/-- `detectTargetKeywords`.  The source sets `placementAnalysis` to `null`
when `topPhrases` is empty and then unconditionally reads
`placementAnalysis.inTitle`; in JavaScript that read throws a `TypeError`,
modelled here as `Except.error`. -/
def detectTargetKeywords (d : Doc) (title : String)
    (metaDescription : Option String) : Except String KeywordAnalysis :=
  let tw := topWords d title metaDescription
  let tp := topPhrases d title metaDescription
  match tp.head? with
  | none =>
    .error "TypeError: Cannot read properties of null (reading inTitle)"
  | some p0 =>
    let pa : PlacementAnalysis :=
      { primaryPhrase := p0.phrase, inTitle := p0.inTitle,
        inMetaDescription := p0.inMetaDescription, inH1 := p0.inH1,
        inH2 := p0.inH2,
        missingFrom :=
          (if !p0.inTitle then ["title"] else []) ++
          (if !p0.inMetaDescription then ["meta description"] else []) ++
          (if !p0.inH1 then ["H1 heading"] else []) ++
          (if !p0.inH2 then ["H2 headings"] else []) }
    .ok { singleWords := tw, phrases := tp, placementAnalysis := pa,
          keywordSummary :=
            { primaryPhrase := some p0.phrase,
              secondaryPhrases := ((tp.drop 1).take 2).map PhraseCand.phrase,
              topSingleWords := (tw.take 3).map WordCand.word } }

/-! ## Rule engine (`analyzeHtml`, src/analyzers/html-analyzer.js) -/

structure Issue where
  severity : String
  message : String
  impact : Nat
  area : String
deriving DecidableEq, Repr

structure Recommendation where
  text : String
  impact : Nat
  reason : String
  implementation : String
deriving DecidableEq, Repr

/-- `hasNoIndex`: the robots content is truthy and contains "noindex". -/
def hasNoIndex (d : Doc) : Bool :=
  truthy d.robotsContent &&
    containsSub (d.robotsContent.getD "").toList "noindex".toList

/-- `hasNoFollow`: the robots content is truthy and contains "nofollow". -/
def hasNoFollow (d : Doc) : Bool :=
  truthy d.robotsContent &&
    containsSub (d.robotsContent.getD "").toList "nofollow".toList

/-- `hasReactRoot`: a known mount-point selector matches. -/
def hasReactRoot (d : Doc) : Bool :=
  d.hasRootId || d.hasAppId || d.hasDataReactRoot

/-- `hasReactScripts`: some script src contains a bundler substring. -/
def hasReactScripts (d : Doc) : Bool :=
  d.scriptSrcs.any (fun o =>
    let src := (o.getD "").toList
    containsSub src "react".toList || containsSub src "bundle".toList ||
      containsSub src "chunk".toList)

/-- `isReactApp = hasReactRoot || (emptyRootDivs > 0 && hasReactScripts)`. -/
def isReactApp (d : Doc) : Bool :=
  hasReactRoot d || (decide (d.emptyDivCount > 0) && hasReactScripts d)

/-- The fixed critical "analysis incomplete" issue pushed for React apps. -/
def reactIncompleteIssue : Issue :=
  { severity := "critical",
    message := "⚠️ WARNING: This is a client-side rendered React app - this analysis is INCOMPLETE",
    impact := 100, area := "Analysis Limitations" }

def reactHiddenIssue : Issue :=
  { severity := "critical",
    message := "Client-side rendered React apps hide content from this analyzer",
    impact := 95, area := "Framework" }

def reactIssues (d : Doc) : List Issue :=
  if isReactApp d then [reactIncompleteIssue, reactHiddenIssue] else []

def reactRecsFront (d : Doc) : List Recommendation :=
  if isReactApp d then
    [{ text := "Switch to server-side rendering for better SEO", impact := 95,
       reason := "This analysis only sees your initial HTML, not the content rendered by React",
       implementation := "Migrate to Next.js, Gatsby, or implement server-side rendering in your current setup" },
     { text := "For accurate analysis, view your page source and analyze what search engines actually see",
       impact := 90,
       reason := "What you see in the browser is different from what search engines see",
       implementation := "Right-click your page and select \"View Page Source\" to see what search engines see" }]
  else []

def reactRecsBack (d : Doc) : List Recommendation :=
  if isReactApp d then
    [{ text := "Use React Helmet to manage meta tags", impact := 85,
       reason := "React Helmet allows you to manage all your meta tags within your React components",
       implementation := "npm install react-helmet, then import and use in your components" },
     { text := "Consider pre-rendering or server-side rendering", impact := 90,
       reason := "Client-side rendered React apps often perform poorly for SEO",
       implementation := "Migrate to Next.js or use a pre-rendering service like Prerender.io" },
     { text := "IMPORTANT: This analysis is incomplete due to client-side rendering",
       impact := 100,
       reason := "This tool can only analyze the initial HTML, not the content rendered by React",
       implementation := "For a complete analysis, you need to analyze the rendered HTML that search engines see" }]
  else []

/-- The medium title-too-long issue, parameterized by the title length
interpolated into its message. -/
def titleTooLongIssue (n : Nat) : Issue :=
  { severity := "medium",
    message := "Title length (" ++ toString n ++
      " chars) exceeds recommended maximum of 60 characters",
    impact := 70, area := "Meta Tags" }

/-- The high missing-meta-description issue. -/
def missingMetaIssue : Issue :=
  { severity := "high", message := "Missing meta description", impact := 80,
    area := "Meta Tags" }

def titleCheck (d : Doc) : List Issue × List Recommendation :=
  if d.title == "" then
    ([{ severity := "high", message := "Missing page title", impact := 90,
        area := "Meta Tags" }],
     [{ text := "Add a descriptive page title", impact := 90,
        reason := "Title tags are a critical ranking factor and appear in search results",
        implementation := "<title>Your Primary Keyword - Your Brand Name</title>" }])
  else if d.title.length < 30 then
    ([{ severity := "medium",
        message := "Title is too short (" ++ toString d.title.length ++
          " chars) - aim for 50-60 characters",
        impact := 75, area := "Meta Tags" }],
     [{ text := "Expand your title to be more descriptive", impact := 75,
        reason := "Short titles miss opportunities to include keywords and attract clicks",
        implementation := "<title>" ++ d.title ++ " | Add More Keywords and Brand</title>" }])
  else if d.title.length > 60 then
    ([titleTooLongIssue d.title.length],
     [{ text := "Shorten title to under 60 characters", impact := 70,
        reason := "Long titles get truncated in search results",
        implementation := "<title>" ++ d.title.take 57 ++ "...</title>" }])
  else ([], [])

def metaCheck (d : Doc) : List Issue × List Recommendation :=
  if !truthy d.metaDescription then
    ([missingMetaIssue],
     [{ text := "Add a descriptive meta description", impact := 80,
        reason := "Meta descriptions appear in search results and affect click-through rates",
        implementation := "<meta name=\"description\" content=\"A compelling description of your page that includes target keywords and encourages clicks.\">" }])
  else
    let len := (d.metaDescription.getD "").length
    if len < 50 ∨ len > 160 then
      ([{ severity := "medium",
          message := "Meta description length (" ++ toString len ++
            " chars) outside recommended range (50-160)",
          impact := 60, area := "Meta Tags" }],
       [{ text := "Adjust meta description to be between 50-160 characters",
          impact := 60,
          reason := "Descriptions outside this range may be truncated or considered thin content",
          implementation :=
            if len < 50 then
              "Expand your meta description to be more descriptive and include target keywords"
            else
              "Shorten your meta description to ensure it displays properly in search results" }])
    else ([], [])

def noindexIssue : Issue :=
  { severity := "critical",
    message := "Page has noindex directive - it will not appear in search results",
    impact := 100, area := "Indexability" }

def noindexCheck (d : Doc) : List Issue × List Recommendation :=
  if hasNoIndex d then
    ([noindexIssue],
     [{ text := "Remove noindex directive if you want this page to be indexed",
        impact := 100,
        reason := "The noindex directive explicitly tells search engines not to include this page in search results",
        implementation := "Change to <meta name=\"robots\" content=\"index,follow\"> or remove the tag entirely" }])
  else ([], [])

def nofollowIssue : Issue :=
  { severity := "high",
    message := "Page has nofollow directive - search engines will not follow links",
    impact := 85, area := "Indexability" }

def nofollowCheck (d : Doc) : List Issue × List Recommendation :=
  if hasNoFollow d then
    ([nofollowIssue],
     [{ text := "Remove nofollow directive if you want link equity to flow through this page",
        impact := 85,
        reason := "The nofollow directive prevents search engines from following links on this page",
        implementation := "Change to <meta name=\"robots\" content=\"index,follow\"> or remove the tag entirely" }])
  else ([], [])

def h1Check (d : Doc) : List Issue × List Recommendation :=
  if d.h1Texts.length == 0 then
    ([{ severity := "high", message := "No H1 heading found", impact := 85,
        area := "Content Structure" }],
     [{ text := "Add an H1 heading to your page", impact := 85,
        reason := "H1 headings help search engines understand the main topic of your page",
        implementation := "<h1>Your Primary Keyword/Topic</h1>" }])
  else if d.h1Texts.length > 1 then
    ([{ severity := "medium",
        message := "Multiple H1 headings found (" ++ toString d.h1Texts.length ++ ")",
        impact := 65, area := "Content Structure" }],
     [{ text := "Use only one H1 heading per page", impact := 65,
        reason := "Multiple H1s can confuse search engines about the main topic of your page",
        implementation := "Keep the most important H1 and change others to H2" }])
  else ([], [])

def hierarchyCheck (d : Doc) : List Issue × List Recommendation :=
  if d.h1Texts.length == 0 ∧ d.h2Texts.length > 0 then
    ([{ severity := "medium",
        message := "H2 headings found without an H1 heading", impact := 70,
        area := "Content Structure" }],
     [{ text := "Add an H1 heading before using H2 headings", impact := 70,
        reason := "Proper heading hierarchy helps search engines understand your content structure",
        implementation := "Add an H1 heading at the top of your content" }])
  else ([], [])

/-- JavaScript or-default on the plain title string. -/
def strOr (s dflt : String) : String := if s == "" then dflt else s

def socialTitleCheck (d : Doc) : List Issue × List Recommendation :=
  if !truthy d.ogTitle && !truthy d.twitterTitle then
    ([{ severity := "medium",
        message := "Missing social media title tags (Open Graph and Twitter)",
        impact := 60, area := "Social Sharing" }],
     [{ text := "Add Open Graph and Twitter Card meta tags", impact := 60,
        reason := "Social media tags improve how your content appears when shared on social platforms",
        implementation :=
          "<meta property=\"og:title\" content=\"" ++ strOr d.title "Your Title" ++
          "\">\n<meta name=\"twitter:title\" content=\"" ++
          strOr d.title "Your Title" ++ "\">" }])
  else ([], [])

def socialImageCheck (d : Doc) : List Issue × List Recommendation :=
  if !truthy d.ogImage && !truthy d.twitterImage then
    ([{ severity := "medium", message := "Missing social media image tags",
        impact := 55, area := "Social Sharing" }],
     [{ text := "Add social media image tags", impact := 55,
        reason := "Images make your content more appealing when shared on social media",
        implementation :=
          "<meta property=\"og:image\" content=\"https://yourdomain.com/path/to/image.jpg\">\n<meta name=\"twitter:image\" content=\"https://yourdomain.com/path/to/image.jpg\">" }])
  else ([], [])

/-- The per-image condition (neither a truthy alt nor a truthy role) under which an
image is counted as missing alt text. -/
def imgMissingAlt (im : Img) : Bool := !truthy im.alt && !truthy im.role

def missingAltIssue (src : String) : Issue :=
  { severity := "medium", message := "Image missing alt text: " ++ src,
    impact := 60, area := "Accessibility" }

def altRollupRec : Recommendation :=
  { text := "Add alt text to all images", impact := 60,
    reason := "Alt text improves accessibility and helps search engines understand image content",
    implementation := "<img src=\"image.jpg\" alt=\"Descriptive text about the image\">" }

def imagesCheck (d : Doc) : List Issue × List Recommendation :=
  let missing := d.imgs.filter imgMissingAlt
  (missing.map (fun im => missingAltIssue (jsOr im.src "unknown image")),
   if missing.length > 0 then [altRollupRec] else [])

def invalidSchemaIssue : Issue :=
  { severity := "high", message := "Invalid JSON-LD schema", impact := 70,
    area := "Structured Data" }

/-- Successfully parsed JSON-LD blocks (`schemas` array): only blocks whose
`JSON.parse` succeeded are pushed; failures push an issue instead. -/
def schemaCount (d : Doc) : Nat := (d.jsonLdValid.filter (fun b => b)).length

def schemaCheck (d : Doc) : List Issue × List Recommendation :=
  ((d.jsonLdValid.filter (fun b => !b)).map (fun _ => invalidSchemaIssue), [])

def noSchemaCheck (d : Doc) : List Issue × List Recommendation :=
  if schemaCount d == 0 then
    ([{ severity := "medium",
        message := "No structured data (schema.org) found", impact := 65,
        area := "Structured Data" }],
     [{ text := "Add structured data using JSON-LD", impact := 65,
        reason := "Structured data helps search engines understand your content and can enable rich results",
        implementation :=
          "<script type=\"application/ld+json\">\n\x7b\n  \"@context\": \"https://schema.org\",\n  \"@type\": \"WebPage\",\n  \"name\": \"" ++
          strOr d.title "Page title" ++ "\",\n  \"description\": \"" ++
          jsOr d.metaDescription "Page description" ++
          "\"\n\x7d\n</script>" }])
  else ([], [])

def canonicalCheck (d : Doc) : List Issue × List Recommendation :=
  if !truthy d.canonicalUrl then
    ([{ severity := "medium", message := "No canonical URL specified",
        impact := 60, area := "Duplicate Content" }],
     [{ text := "Add a canonical URL tag", impact := 60,
        reason := "Canonical URLs help prevent duplicate content issues",
        implementation := "<link rel=\"canonical\" href=\"https://yourdomain.com/current-page/\">" }])
  else ([], [])

def viewportCheck (d : Doc) : List Issue × List Recommendation :=
  if !d.hasViewport then
    ([{ severity := "high",
        message := "Missing viewport meta tag for mobile responsiveness",
        impact := 80, area := "Mobile Optimization" }],
     [{ text := "Add a viewport meta tag", impact := 80,
        reason := "Mobile-friendly pages rank better in mobile search results",
        implementation := "<meta name=\"viewport\" content=\"width=device-width, initial-scale=1\">" }])
  else ([], [])

/-- The non-React checks in the order their `push` calls execute. -/
def nonReactChecks (d : Doc) : List (List Issue × List Recommendation) :=
  [titleCheck d, metaCheck d, noindexCheck d, nofollowCheck d, h1Check d,
   hierarchyCheck d, socialTitleCheck d, socialImageCheck d,
   imagesCheck d, schemaCheck d, noSchemaCheck d, canonicalCheck d,
   viewportCheck d]

/-- Issues contributed by the non-React checks, in detection order. -/
def nonReactIssues (d : Doc) : List Issue :=
  (nonReactChecks d).flatMap Prod.fst

/-- The full `issues` array in detection (push) order, before sorting. -/
def detectedIssues (d : Doc) : List Issue :=
  reactIssues d ++ nonReactIssues d

/-- The full `recommendations` array in detection (push) order: the two
React recommendations pushed inside the React warning block, then the
per-check recommendations, then the three React recommendations pushed at
the end. -/
def detectedRecs (d : Doc) : List Recommendation :=
  reactRecsFront d ++ (nonReactChecks d).flatMap Prod.snd ++ reactRecsBack d

structure AnalysisResult where
  pageIdentifier : String
  title : String
  metaDescription : Option String
  h1Count : Nat
  h2Count : Nat
  h3Count : Nat
  noindex : Bool
  nofollow : Bool
  hasOpenGraph : Bool
  hasTwitterCards : Bool
  hasCanonical : Bool
  hasViewport : Bool
  schemaCount : Nat
  issues : List Issue
  recommendations : List Recommendation
  isReactApp : Bool
  keywordAnalysis : KeywordAnalysis
  confidenceScore : Nat
deriving DecidableEq, Repr

/-- `analyzeHtml`: compose the keyword scorer and the rule engine for one
document.  A `TypeError` escaping `detectTargetKeywords` aborts the whole
call, modelled by propagating the `Except.error`. -/
def analyzeHtml (d : Doc) (pageIdentifier : String) :
    Except String AnalysisResult :=
  match detectTargetKeywords d d.title d.metaDescription with
  | .error e => .error e
  | .ok ka =>
    .ok { pageIdentifier := pageIdentifier,
          title := d.title,
          metaDescription := d.metaDescription,
          h1Count := d.h1Texts.length,
          h2Count := d.h2Texts.length,
          h3Count := d.h3Count,
          noindex := hasNoIndex d,
          nofollow := hasNoFollow d,
          hasOpenGraph := truthy d.ogTitle || truthy d.ogDescription ||
            truthy d.ogImage,
          hasTwitterCards := truthy d.twitterCard || truthy d.twitterTitle ||
            truthy d.twitterDescription || truthy d.twitterImage,
          hasCanonical := truthy d.canonicalUrl,
          hasViewport := d.hasViewport,
          schemaCount := schemaCount d,
          issues := sortByKeyDesc Issue.impact (detectedIssues d),
          recommendations := sortByKeyDesc Recommendation.impact (detectedRecs d),
          isReactApp := isReactApp d,
          keywordAnalysis := ka,
          confidenceScore := if isReactApp d then 40 else 100 }

/-! ## Generic consequences of a successful analysis -/

theorem analyzeHtml_ok_fields {d : Doc} {pid : String} {r : AnalysisResult}
    (h : analyzeHtml d pid = .ok r) :
    r.issues = sortByKeyDesc Issue.impact (detectedIssues d) ∧
    r.recommendations = sortByKeyDesc Recommendation.impact (detectedRecs d) ∧
    r.isReactApp = isReactApp d ∧
    r.confidenceScore = (if isReactApp d then 40 else 100) ∧
    r.schemaCount = schemaCount d := by
  unfold analyzeHtml at h
  cases hk : detectTargetKeywords d d.title d.metaDescription with
  | error e => rw [hk] at h; exact absurd h (by simp)
  | ok ka =>
    rw [hk] at h
    have := Except.ok.inj h
    subst this
    exact ⟨rfl, rfl, rfl, rfl, rfl⟩

theorem detectTargetKeywords_ok_fields {d : Doc} {t : String}
    {m : Option String} {ka : KeywordAnalysis}
    (h : detectTargetKeywords d t m = .ok ka) :
    ka.singleWords = topWords d t m ∧ ka.phrases = topPhrases d t m := by
  unfold detectTargetKeywords at h
  dsimp only [] at h
  cases hh : (topPhrases d t m).head? with
  | none => rw [hh] at h; exact absurd h (by simp)
  | some p0 =>
    rw [hh] at h
    have := Except.ok.inj h
    subst this
    exact ⟨rfl, rfl⟩

instance {ε α : Type} [DecidableEq ε] [DecidableEq α] :
    DecidableEq (Except ε α) := fun a b =>
  match a, b with
  | .error e1, .error e2 =>
    if h : e1 = e2 then isTrue (by rw [h])
    else isFalse (by intro hc; cases hc; exact h rfl)
  | .ok a1, .ok a2 =>
    if h : a1 = a2 then isTrue (by rw [h])
    else isFalse (by intro hc; cases hc; exact h rfl)
  | .error _, .ok _ => isFalse (by intro hc; cases hc)
  | .ok _, .error _ => isFalse (by intro hc; cases hc)

/-- A dummy keyword analysis used only as the default of `Option.getD`
when naming the result of a concrete successful run. -/
def dummyKeywordAnalysis : KeywordAnalysis :=
  { singleWords := [], phrases := [],
    placementAnalysis :=
      { primaryPhrase := [], inTitle := false, inMetaDescription := false,
        inH1 := false, inH2 := false, missingFrom := [] },
    keywordSummary :=
      { primaryPhrase := none, secondaryPhrases := [], topSingleWords := [] } }

def dummyResult : AnalysisResult :=
  { pageIdentifier := "", title := "", metaDescription := none,
    h1Count := 0, h2Count := 0, h3Count := 0, noindex := false,
    nofollow := false, hasOpenGraph := false, hasTwitterCards := false,
    hasCanonical := false, hasViewport := false, schemaCount := 0,
    issues := [], recommendations := [], isReactApp := false,
    keywordAnalysis := dummyKeywordAnalysis, confidenceScore := 0 }

/-- A document that analyses successfully and with no detected issue:
well-sized title and meta description, one H1, social tags, a valid schema
block, canonical, viewport, and body text containing scorable phrases. -/
def cleanDoc : Doc :=
  { title := "A Fine Title About Verified Claude Proofs",
    metaDescription := some "This page describes verified proofs about claude and formal methods in detail.",
    h1Texts := ["Verified Claude Proofs"], h2Texts := [], h3Count := 0,
    robotsContent := none, canonicalUrl := some "https://example.com/x",
    ogTitle := some "t", ogDescription := none, ogImage := some "i",
    twitterCard := none, twitterTitle := none, twitterDescription := none,
    twitterImage := none, hasRootId := false, hasAppId := false,
    hasDataReactRoot := false, emptyDivCount := 0, scriptSrcs := [],
    imgs := [], jsonLdValid := [true], hasViewport := true,
    bodyText := "claude proofs claude proofs formal methods" }

/-! ## Claim C1 -/

/-- Claim C1: for every analyzed document, the returned `issues` and
`recommendations` are each sorted by impact score in non-increasing order,
and within any one impact value they keep the original detection
(insertion) order, as a stable sort produces. -/
theorem c1_issues_recs_sorted_stable (d : Doc) (pid : String)
    (r : AnalysisResult) (h : analyzeHtml d pid = .ok r) :
    List.Sorted (fun a b => Issue.impact b ≤ Issue.impact a) r.issues ∧
    List.Sorted (fun a b => Recommendation.impact b ≤ Recommendation.impact a)
      r.recommendations ∧
    (∀ v : Nat, r.issues.filter (fun i => decide (i.impact = v)) =
      (detectedIssues d).filter (fun i => decide (i.impact = v))) ∧
    (∀ v : Nat, r.recommendations.filter (fun x => decide (x.impact = v)) =
      (detectedRecs d).filter (fun x => decide (x.impact = v))) := by
  obtain ⟨hi, hr, -, -, -⟩ := analyzeHtml_ok_fields h
  refine ⟨?_, ?_, ?_, ?_⟩
  · rw [hi]; exact sortByKeyDesc_sorted Issue.impact _
  · rw [hr]; exact sortByKeyDesc_sorted Recommendation.impact _
  · intro v; rw [hi]; exact filter_sortByKeyDesc Issue.impact v _
  · intro v; rw [hr]; exact filter_sortByKeyDesc Recommendation.impact v _

def c1Res : AnalysisResult := (analyzeHtml cleanDoc "page").toOption.getD dummyResult

theorem c1_witness :
    List.Sorted (fun a b => Issue.impact b ≤ Issue.impact a) c1Res.issues ∧
    List.Sorted (fun a b => Recommendation.impact b ≤ Recommendation.impact a)
      c1Res.recommendations ∧
    (∀ v : Nat, c1Res.issues.filter (fun i => decide (i.impact = v)) =
      (detectedIssues cleanDoc).filter (fun i => decide (i.impact = v))) ∧
    (∀ v : Nat, c1Res.recommendations.filter (fun x => decide (x.impact = v)) =
      (detectedRecs cleanDoc).filter (fun x => decide (x.impact = v))) :=
  c1_issues_recs_sorted_stable cleanDoc "page" c1Res (by decide)

/-! ## Claim C2 -/

/-- Claim C2: a document containing an element with id "root" and no other
SEO problem analyses with `isReactApp = true`, the fixed critical
"analysis incomplete" issue (impact 100) is the top-ranked issue, and the
confidence indicator is lowered from its initial 100 to 40. -/
theorem c2_react_root_top_issue (d : Doc) (pid : String) (r : AnalysisResult)
    (hroot : d.hasRootId = true) (hclean : nonReactIssues d = [])
    (h : analyzeHtml d pid = .ok r) :
    r.isReactApp = true ∧
    r.issues.head? = some reactIncompleteIssue ∧
    reactIncompleteIssue.impact = 100 ∧
    r.confidenceScore = 40 := by
  obtain ⟨hi, -, happ, hconf, -⟩ := analyzeHtml_ok_fields h
  have hreact : isReactApp d = true := by
    unfold isReactApp hasReactRoot
    rw [hroot]
    rfl
  refine ⟨by rw [happ, hreact], ?_, rfl, by rw [hconf, hreact]; rfl⟩
  rw [hi]
  unfold detectedIssues reactIssues
  rw [hreact, hclean]
  rfl

def c2Doc : Doc := { cleanDoc with hasRootId := true }

def c2Res : AnalysisResult := (analyzeHtml c2Doc "page").toOption.getD dummyResult

theorem c2_witness :
    c2Doc.hasRootId = true ∧ nonReactIssues c2Doc = [] ∧
    (c2Res.isReactApp = true ∧
     c2Res.issues.head? = some reactIncompleteIssue ∧
     reactIncompleteIssue.impact = 100 ∧
     c2Res.confidenceScore = 40) :=
  ⟨rfl, by decide,
   c2_react_root_top_issue c2Doc "page" c2Res rfl (by decide) (by decide)⟩

/-! ## Claim C3 -/

/-- A document whose body text is empty (and which has nothing else that
could contribute keyword candidates). -/
def emptyBodyDoc : Doc :=
  { title := "", metaDescription := none, h1Texts := [], h2Texts := [],
    h3Count := 0, robotsContent := none, canonicalUrl := none,
    ogTitle := none, ogDescription := none, ogImage := none,
    twitterCard := none, twitterTitle := none, twitterDescription := none,
    twitterImage := none, hasRootId := false, hasAppId := false,
    hasDataReactRoot := false, emptyDivCount := 0, scriptSrcs := [],
    imgs := [], jsonLdValid := [], hasViewport := false, bodyText := "" }

/-- Claim C3 (evaluation at the failing input): on empty body text the
candidate sets are indeed empty, but the keyword scorer does not return
normally: the source builds `placementAnalysis` as `null` when
`topPhrases` is empty and then unconditionally reads
`placementAnalysis.inTitle`, which throws a `TypeError`. -/
theorem c3_empty_body_throws :
    scoredWords emptyBodyDoc "" none = [] ∧
    scoredPhrases emptyBodyDoc "" none = [] ∧
    detectTargetKeywords emptyBodyDoc "" none =
      .error "TypeError: Cannot read properties of null (reading inTitle)" :=
  ⟨rfl, rfl, rfl⟩

/-! ## Claim C9 -/

/-- Claim C9: whenever the keyword scorer produces a result, `topWords`
(`singleWords`) and `topPhrases` (`phrases`) each have length at most 5
and are sorted by score in non-increasing order. -/
theorem c9_top_candidates_bounded_sorted (d : Doc) (t : String)
    (m : Option String) (ka : KeywordAnalysis)
    (h : detectTargetKeywords d t m = .ok ka) :
    ka.singleWords.length ≤ 5 ∧ ka.phrases.length ≤ 5 ∧
    List.Sorted (fun a b => WordCand.score b ≤ WordCand.score a)
      ka.singleWords ∧
    List.Sorted (fun a b => PhraseCand.score2 b ≤ PhraseCand.score2 a)
      ka.phrases := by
  obtain ⟨hw, hp⟩ := detectTargetKeywords_ok_fields h
  refine ⟨?_, ?_, ?_, ?_⟩
  · rw [hw]; exact List.length_take_le 5 _
  · rw [hp]; exact List.length_take_le 5 _
  · rw [hw]
    exact List.Pairwise.sublist (List.take_sublist 5 _)
      (sortByKeyDesc_sorted WordCand.score _)
  · rw [hp]
    exact List.Pairwise.sublist (List.take_sublist 5 _)
      (sortByKeyDesc_sorted PhraseCand.score2 _)

def c9Ka : KeywordAnalysis :=
  (detectTargetKeywords cleanDoc cleanDoc.title cleanDoc.metaDescription).toOption.getD
    dummyKeywordAnalysis

theorem c9_witness :
    c9Ka.singleWords.length ≤ 5 ∧ c9Ka.phrases.length ≤ 5 ∧
    List.Sorted (fun a b => WordCand.score b ≤ WordCand.score a)
      c9Ka.singleWords ∧
    List.Sorted (fun a b => PhraseCand.score2 b ≤ PhraseCand.score2 a)
      c9Ka.phrases :=
  c9_top_candidates_bounded_sorted cleanDoc cleanDoc.title
    cleanDoc.metaDescription c9Ka (by decide)

/-! ## Claim C5 -/

/-- Claim C5: a robots meta content containing both "noindex" and
"nofollow" yields the critical noindex issue (impact 100) and the high
nofollow issue (impact 85), with the critical one ranked before the
nofollow one. -/
theorem c5_noindex_nofollow (d : Doc) (pid : String) (r : AnalysisResult)
    (robots : String) (hrc : d.robotsContent = some robots)
    (hni : containsSub robots.toList "noindex".toList = true)
    (hnf : containsSub robots.toList "nofollow".toList = true)
    (h : analyzeHtml d pid = .ok r) :
    noindexIssue ∈ r.issues ∧ nofollowIssue ∈ r.issues ∧
    noindexIssue.severity = "critical" ∧ noindexIssue.impact = 100 ∧
    nofollowIssue.severity = "high" ∧ nofollowIssue.impact = 85 ∧
    r.issues.indexOf noindexIssue < r.issues.indexOf nofollowIssue := by
  obtain ⟨hi, -, -, -, -⟩ := analyzeHtml_ok_fields h
  have hne : (robots == "") = false := by
    rw [beq_eq_false_iff_ne]
    intro he
    rw [he] at hni
    exact absurd hni (by decide)
  have hNI : hasNoIndex d = true := by
    unfold hasNoIndex truthy
    rw [hrc]
    simp only [Option.getD_some, hne, Bool.not_false, Bool.true_and]
    exact hni
  have hNF : hasNoFollow d = true := by
    unfold hasNoFollow truthy
    rw [hrc]
    simp only [Option.getD_some, hne, Bool.not_false, Bool.true_and]
    exact hnf
  have hmemN : noindexIssue ∈ detectedIssues d := by
    have hchk : (noindexCheck d).1 = [noindexIssue] := by
      simp [noindexCheck, hNI]
    unfold detectedIssues
    refine List.mem_append_right _ ?_
    unfold nonReactIssues
    refine List.mem_flatMap.mpr ⟨noindexCheck d, ?_, ?_⟩
    · simp [nonReactChecks]
    · rw [hchk]; exact List.mem_singleton_self _
  have hmemF : nofollowIssue ∈ detectedIssues d := by
    have hchk : (nofollowCheck d).1 = [nofollowIssue] := by
      simp [nofollowCheck, hNF]
    unfold detectedIssues
    refine List.mem_append_right _ ?_
    unfold nonReactIssues
    refine List.mem_flatMap.mpr ⟨nofollowCheck d, ?_, ?_⟩
    · simp [nonReactChecks]
    · rw [hchk]; exact List.mem_singleton_self _
  have hpm := sortByKeyDesc_perm Issue.impact (detectedIssues d)
  have hmemN2 : noindexIssue ∈ r.issues := by
    rw [hi]; exact hpm.mem_iff.mpr hmemN
  have hmemF2 : nofollowIssue ∈ r.issues := by
    rw [hi]; exact hpm.mem_iff.mpr hmemF
  have hsorted : List.Sorted (keyDescRel Issue.impact) r.issues := by
    rw [hi]; exact sortByKeyDesc_sorted Issue.impact _
  exact ⟨hmemN2, hmemF2, rfl, rfl, rfl, rfl,
    indexOf_lt_of_key_gt Issue.impact hsorted hmemN2 hmemF2 (by decide)⟩

def c5Doc : Doc := { cleanDoc with robotsContent := some "noindex,nofollow" }

def c5Res : AnalysisResult := (analyzeHtml c5Doc "page").toOption.getD dummyResult

theorem c5_witness :
    noindexIssue ∈ c5Res.issues ∧ nofollowIssue ∈ c5Res.issues ∧
    noindexIssue.severity = "critical" ∧ noindexIssue.impact = 100 ∧
    nofollowIssue.severity = "high" ∧ nofollowIssue.impact = 85 ∧
    c5Res.issues.indexOf noindexIssue < c5Res.issues.indexOf nofollowIssue :=
  c5_noindex_nofollow c5Doc "page" c5Res "noindex,nofollow" rfl
    (by decide) (by decide) (by decide)

/-! ## Claim C6 -/

/-- Claim C6: a document with a 70-character title and no meta description
emits the medium title-too-long issue (impact 70) and the high
missing-meta-description issue (impact 80), and the high issue is ranked
before the medium one. -/
theorem c6_long_title_missing_meta (d : Doc) (pid : String)
    (r : AnalysisResult) (hlen : d.title.length = 70)
    (hmeta : d.metaDescription = none)
    (h : analyzeHtml d pid = .ok r) :
    titleTooLongIssue 70 ∈ r.issues ∧ missingMetaIssue ∈ r.issues ∧
    (titleTooLongIssue 70).severity = "medium" ∧
    (titleTooLongIssue 70).impact = 70 ∧
    missingMetaIssue.severity = "high" ∧ missingMetaIssue.impact = 80 ∧
    r.issues.indexOf missingMetaIssue < r.issues.indexOf (titleTooLongIssue 70) := by
  obtain ⟨hi, -, -, -, -⟩ := analyzeHtml_ok_fields h
  have hne : (d.title == "") = false := by
    rw [beq_eq_false_iff_ne]
    intro he
    rw [he] at hlen
    exact absurd hlen (by decide)
  have hnotshort : ¬ d.title.length < 30 := by omega
  have hlong : d.title.length > 60 := by omega
  have htc : (titleCheck d).1 = [titleTooLongIssue 70] := by
    unfold titleCheck
    simp only [hne, hlen]
    norm_num
  have hmc : (metaCheck d).1 = [missingMetaIssue] := by
    unfold metaCheck
    rw [hmeta]
    rfl
  have hmemT : titleTooLongIssue 70 ∈ detectedIssues d := by
    unfold detectedIssues
    refine List.mem_append_right _ ?_
    unfold nonReactIssues
    refine List.mem_flatMap.mpr ⟨titleCheck d, ?_, ?_⟩
    · simp [nonReactChecks]
    · rw [htc]; exact List.mem_singleton_self _
  have hmemM : missingMetaIssue ∈ detectedIssues d := by
    unfold detectedIssues
    refine List.mem_append_right _ ?_
    unfold nonReactIssues
    refine List.mem_flatMap.mpr ⟨metaCheck d, ?_, ?_⟩
    · simp [nonReactChecks]
    · rw [hmc]; exact List.mem_singleton_self _
  have hpm := sortByKeyDesc_perm Issue.impact (detectedIssues d)
  have hmemT2 : titleTooLongIssue 70 ∈ r.issues := by
    rw [hi]; exact hpm.mem_iff.mpr hmemT
  have hmemM2 : missingMetaIssue ∈ r.issues := by
    rw [hi]; exact hpm.mem_iff.mpr hmemM
  have hsorted : List.Sorted (keyDescRel Issue.impact) r.issues := by
    rw [hi]; exact sortByKeyDesc_sorted Issue.impact _
  exact ⟨hmemT2, hmemM2, rfl, rfl, rfl, rfl,
    indexOf_lt_of_key_gt Issue.impact hsorted hmemM2 hmemT2 (by decide)⟩

def c6Doc : Doc := { cleanDoc with
  title := "A Title That Is Exactly Seventy Characters Long For Testing Purposes!!",
  metaDescription := none }

def c6Res : AnalysisResult := (analyzeHtml c6Doc "page").toOption.getD dummyResult

set_option maxRecDepth 4000 in
theorem c6_witness :
    c6Doc.title.length = 70 ∧
    (titleTooLongIssue 70 ∈ c6Res.issues ∧ missingMetaIssue ∈ c6Res.issues ∧
     (titleTooLongIssue 70).severity = "medium" ∧
     (titleTooLongIssue 70).impact = 70 ∧
     missingMetaIssue.severity = "high" ∧ missingMetaIssue.impact = 80 ∧
     c6Res.issues.indexOf missingMetaIssue <
       c6Res.issues.indexOf (titleTooLongIssue 70)) :=
  ⟨by decide,
   c6_long_title_missing_meta c6Doc "page" c6Res (by decide) rfl (by decide)⟩

/-! ## Counting particular issues and recommendations across the checks -/

theorem titleCheck_issues_countP (d : Doc) :
    (titleCheck d).1.countP (fun i => decide (i = invalidSchemaIssue)) = 0 ∧
    (titleCheck d).1.countP (fun i => i.area == "Accessibility") = 0 := by
  constructor <;> unfold titleCheck <;> split_ifs <;> rfl

theorem metaCheck_issues_countP (d : Doc) :
    (metaCheck d).1.countP (fun i => decide (i = invalidSchemaIssue)) = 0 ∧
    (metaCheck d).1.countP (fun i => i.area == "Accessibility") = 0 := by
  constructor <;> unfold metaCheck <;> dsimp only <;> split_ifs <;> rfl

theorem noindexCheck_issues_countP (d : Doc) :
    (noindexCheck d).1.countP (fun i => decide (i = invalidSchemaIssue)) = 0 ∧
    (noindexCheck d).1.countP (fun i => i.area == "Accessibility") = 0 := by
  constructor <;> unfold noindexCheck <;> split_ifs <;> rfl

theorem nofollowCheck_issues_countP (d : Doc) :
    (nofollowCheck d).1.countP (fun i => decide (i = invalidSchemaIssue)) = 0 ∧
    (nofollowCheck d).1.countP (fun i => i.area == "Accessibility") = 0 := by
  constructor <;> unfold nofollowCheck <;> split_ifs <;> rfl

theorem h1Check_issues_countP (d : Doc) :
    (h1Check d).1.countP (fun i => decide (i = invalidSchemaIssue)) = 0 ∧
    (h1Check d).1.countP (fun i => i.area == "Accessibility") = 0 := by
  constructor <;> unfold h1Check <;> split_ifs <;> rfl

theorem hierarchyCheck_issues_countP (d : Doc) :
    (hierarchyCheck d).1.countP (fun i => decide (i = invalidSchemaIssue)) = 0 ∧
    (hierarchyCheck d).1.countP (fun i => i.area == "Accessibility") = 0 := by
  constructor <;> unfold hierarchyCheck <;> split_ifs <;> rfl

theorem socialTitleCheck_issues_countP (d : Doc) :
    (socialTitleCheck d).1.countP (fun i => decide (i = invalidSchemaIssue)) = 0 ∧
    (socialTitleCheck d).1.countP (fun i => i.area == "Accessibility") = 0 := by
  constructor <;> unfold socialTitleCheck <;> split_ifs <;> rfl

theorem socialImageCheck_issues_countP (d : Doc) :
    (socialImageCheck d).1.countP (fun i => decide (i = invalidSchemaIssue)) = 0 ∧
    (socialImageCheck d).1.countP (fun i => i.area == "Accessibility") = 0 := by
  constructor <;> unfold socialImageCheck <;> split_ifs <;> rfl

theorem noSchemaCheck_issues_countP (d : Doc) :
    (noSchemaCheck d).1.countP (fun i => decide (i = invalidSchemaIssue)) = 0 ∧
    (noSchemaCheck d).1.countP (fun i => i.area == "Accessibility") = 0 := by
  constructor <;> unfold noSchemaCheck <;> split_ifs <;> rfl

theorem canonicalCheck_issues_countP (d : Doc) :
    (canonicalCheck d).1.countP (fun i => decide (i = invalidSchemaIssue)) = 0 ∧
    (canonicalCheck d).1.countP (fun i => i.area == "Accessibility") = 0 := by
  constructor <;> unfold canonicalCheck <;> split_ifs <;> rfl

theorem viewportCheck_issues_countP (d : Doc) :
    (viewportCheck d).1.countP (fun i => decide (i = invalidSchemaIssue)) = 0 ∧
    (viewportCheck d).1.countP (fun i => i.area == "Accessibility") = 0 := by
  constructor <;> unfold viewportCheck <;> split_ifs <;> rfl

theorem reactIssues_countP (d : Doc) :
    (reactIssues d).countP (fun i => decide (i = invalidSchemaIssue)) = 0 ∧
    (reactIssues d).countP (fun i => i.area == "Accessibility") = 0 := by
  constructor <;> unfold reactIssues <;> split_ifs <;> rfl

theorem imagesCheck_countP_inv (d : Doc) :
    (imagesCheck d).1.countP (fun i => decide (i = invalidSchemaIssue)) = 0 := by
  unfold imagesCheck
  dsimp only
  rw [List.countP_map]
  refine List.countP_eq_zero.mpr ?_
  intro im _
  simp [Function.comp, missingAltIssue, invalidSchemaIssue]

theorem imagesCheck_countP_acc (d : Doc) :
    (imagesCheck d).1.countP (fun i => i.area == "Accessibility") =
      (d.imgs.filter imgMissingAlt).length := by
  unfold imagesCheck
  dsimp only
  rw [List.countP_map]
  simp [Function.comp, missingAltIssue]

theorem schemaCheck_countP_inv (d : Doc) :
    (schemaCheck d).1.countP (fun i => decide (i = invalidSchemaIssue)) =
      (d.jsonLdValid.filter (fun b => !b)).length := by
  unfold schemaCheck
  dsimp only
  rw [List.countP_map]
  simp [Function.comp]

theorem schemaCheck_countP_acc (d : Doc) :
    (schemaCheck d).1.countP (fun i => i.area == "Accessibility") = 0 := by
  unfold schemaCheck
  dsimp only
  rw [List.countP_map]
  simp [Function.comp, invalidSchemaIssue]

theorem detectedIssues_countP_inv (d : Doc) :
    (detectedIssues d).countP (fun i => decide (i = invalidSchemaIssue)) =
      (d.jsonLdValid.filter (fun b => !b)).length := by
  unfold detectedIssues nonReactIssues nonReactChecks
  simp only [List.flatMap_cons, List.flatMap_nil, List.append_nil,
    List.countP_append]
  rw [(reactIssues_countP d).1, (titleCheck_issues_countP d).1,
    (metaCheck_issues_countP d).1, (noindexCheck_issues_countP d).1,
    (nofollowCheck_issues_countP d).1, (h1Check_issues_countP d).1,
    (hierarchyCheck_issues_countP d).1, (socialTitleCheck_issues_countP d).1,
    (socialImageCheck_issues_countP d).1, imagesCheck_countP_inv d,
    schemaCheck_countP_inv d, (noSchemaCheck_issues_countP d).1,
    (canonicalCheck_issues_countP d).1, (viewportCheck_issues_countP d).1]
  omega

theorem detectedIssues_countP_acc (d : Doc) :
    (detectedIssues d).countP (fun i => i.area == "Accessibility") =
      (d.imgs.filter imgMissingAlt).length := by
  unfold detectedIssues nonReactIssues nonReactChecks
  simp only [List.flatMap_cons, List.flatMap_nil, List.append_nil,
    List.countP_append]
  rw [(reactIssues_countP d).2, (titleCheck_issues_countP d).2,
    (metaCheck_issues_countP d).2, (noindexCheck_issues_countP d).2,
    (nofollowCheck_issues_countP d).2, (h1Check_issues_countP d).2,
    (hierarchyCheck_issues_countP d).2, (socialTitleCheck_issues_countP d).2,
    (socialImageCheck_issues_countP d).2, imagesCheck_countP_acc d,
    schemaCheck_countP_acc d, (noSchemaCheck_issues_countP d).2,
    (canonicalCheck_issues_countP d).2, (viewportCheck_issues_countP d).2]
  omega

theorem titleCheck_recs_countP (d : Doc) :
    (titleCheck d).2.countP (fun x => decide (x = altRollupRec)) = 0 := by
  unfold titleCheck; split_ifs <;> rfl

theorem metaCheck_recs_countP (d : Doc) :
    (metaCheck d).2.countP (fun x => decide (x = altRollupRec)) = 0 := by
  unfold metaCheck; dsimp only; split_ifs <;> rfl

theorem noindexCheck_recs_countP (d : Doc) :
    (noindexCheck d).2.countP (fun x => decide (x = altRollupRec)) = 0 := by
  unfold noindexCheck; split_ifs <;> rfl

theorem nofollowCheck_recs_countP (d : Doc) :
    (nofollowCheck d).2.countP (fun x => decide (x = altRollupRec)) = 0 := by
  unfold nofollowCheck; split_ifs <;> rfl

theorem h1Check_recs_countP (d : Doc) :
    (h1Check d).2.countP (fun x => decide (x = altRollupRec)) = 0 := by
  unfold h1Check; split_ifs <;> rfl

theorem hierarchyCheck_recs_countP (d : Doc) :
    (hierarchyCheck d).2.countP (fun x => decide (x = altRollupRec)) = 0 := by
  unfold hierarchyCheck; split_ifs <;> rfl

theorem socialTitleCheck_recs_countP (d : Doc) :
    (socialTitleCheck d).2.countP (fun x => decide (x = altRollupRec)) = 0 := by
  unfold socialTitleCheck; split_ifs <;> rfl

theorem socialImageCheck_recs_countP (d : Doc) :
    (socialImageCheck d).2.countP (fun x => decide (x = altRollupRec)) = 0 := by
  unfold socialImageCheck; split_ifs <;> rfl

theorem schemaCheck_recs_countP (d : Doc) :
    (schemaCheck d).2.countP (fun x => decide (x = altRollupRec)) = 0 := rfl

theorem noSchemaCheck_recs_countP (d : Doc) :
    (noSchemaCheck d).2.countP (fun x => decide (x = altRollupRec)) = 0 := by
  unfold noSchemaCheck; split_ifs <;> rfl

theorem canonicalCheck_recs_countP (d : Doc) :
    (canonicalCheck d).2.countP (fun x => decide (x = altRollupRec)) = 0 := by
  unfold canonicalCheck; split_ifs <;> rfl

theorem viewportCheck_recs_countP (d : Doc) :
    (viewportCheck d).2.countP (fun x => decide (x = altRollupRec)) = 0 := by
  unfold viewportCheck; split_ifs <;> rfl

theorem reactRecsFront_countP (d : Doc) :
    (reactRecsFront d).countP (fun x => decide (x = altRollupRec)) = 0 := by
  unfold reactRecsFront; split_ifs <;> rfl

theorem reactRecsBack_countP (d : Doc) :
    (reactRecsBack d).countP (fun x => decide (x = altRollupRec)) = 0 := by
  unfold reactRecsBack; split_ifs <;> rfl

theorem imagesCheck_recs_countP (d : Doc) :
    (imagesCheck d).2.countP (fun x => decide (x = altRollupRec)) =
      (if (d.imgs.filter imgMissingAlt).length > 0 then 1 else 0) := by
  unfold imagesCheck
  dsimp only
  split_ifs <;> rfl

theorem detectedRecs_countP_roll (d : Doc) :
    (detectedRecs d).countP (fun x => decide (x = altRollupRec)) =
      (if (d.imgs.filter imgMissingAlt).length > 0 then 1 else 0) := by
  unfold detectedRecs nonReactChecks
  simp only [List.flatMap_cons, List.flatMap_nil, List.append_nil,
    List.countP_append]
  rw [reactRecsFront_countP d, reactRecsBack_countP d, titleCheck_recs_countP d,
    metaCheck_recs_countP d, noindexCheck_recs_countP d,
    nofollowCheck_recs_countP d, h1Check_recs_countP d,
    hierarchyCheck_recs_countP d, socialTitleCheck_recs_countP d,
    socialImageCheck_recs_countP d, imagesCheck_recs_countP d,
    schemaCheck_recs_countP d, noSchemaCheck_recs_countP d,
    canonicalCheck_recs_countP d, viewportCheck_recs_countP d]
  omega

theorem filter_bool_length_split (l : List Bool) :
    (l.filter (fun b => b)).length + (l.filter (fun b => !b)).length = l.length := by
  induction l with
  | nil => rfl
  | cons b bs ih => cases b <;> simp [List.filter] <;> omega

/-! ## Claim C4 -/

/-- Claim C4 (amended): on a document whose JSON-LD blocks number two with
exactly one malformed, the recorded schema sequence keeps only the valid
block (length 1 - no parse-failure marker is recorded), and exactly one
high "invalid schema" issue is emitted (one per malformed block); the
malformed block is reported as that issue rather than escaping as an
exception. -/
theorem c4_schema_blocks_amended (d : Doc) (pid : String)
    (r : AnalysisResult) (hlen : d.jsonLdValid.length = 2)
    (hbad : (d.jsonLdValid.filter (fun b => !b)).length = 1)
    (h : analyzeHtml d pid = .ok r) :
    r.schemaCount = 1 ∧
    r.issues.countP (fun i => decide (i = invalidSchemaIssue)) = 1 := by
  obtain ⟨hi, -, -, -, hsc⟩ := analyzeHtml_ok_fields h
  constructor
  · rw [hsc]
    unfold schemaCount
    have := filter_bool_length_split d.jsonLdValid
    omega
  · rw [hi, (sortByKeyDesc_perm Issue.impact (detectedIssues d)).countP_eq,
      detectedIssues_countP_inv d, hbad]

def c4Doc : Doc := { cleanDoc with jsonLdValid := [true, false] }

def c4Res : AnalysisResult := (analyzeHtml c4Doc "page").toOption.getD dummyResult

theorem c4_amended_witness :
    c4Res.schemaCount = 1 ∧
    c4Res.issues.countP (fun i => decide (i = invalidSchemaIssue)) = 1 :=
  c4_schema_blocks_amended c4Doc "page" c4Res rfl rfl (by decide)

/-- Claim C4 counterexample: with two JSON-LD blocks, one valid and one
malformed, the recorded schema sequence has length 1, not the claimed 2:
the analyzer stores no parse-failure marker for the malformed block. -/
theorem c4_counterexample :
    c4Doc.jsonLdValid = [true, false] ∧
    (analyzeHtml c4Doc "page").toOption.map AnalysisResult.schemaCount =
      some 1 ∧ (1 : Nat) ≠ 2 :=
  ⟨rfl, by decide, by decide⟩

/-! ## Claim C10 -/

/-- Claim C10 (amended): the missing-alt issue count equals the number of
images whose alt value is absent or empty and whose role value is absent
or empty (JavaScript truthiness), and the rollup recommendation appears
exactly when at least one such image exists.  In particular an image with
a nonempty role attribute and no alt produces no issue, but one whose role
attribute is present with an empty value still does. -/
theorem c10_missing_alt_amended (d : Doc) (pid : String)
    (r : AnalysisResult) (h : analyzeHtml d pid = .ok r) :
    r.issues.countP (fun i => i.area == "Accessibility") =
      (d.imgs.filter imgMissingAlt).length ∧
    r.recommendations.countP (fun x => decide (x = altRollupRec)) =
      (if (d.imgs.filter imgMissingAlt).length > 0 then 1 else 0) := by
  obtain ⟨hi, hr, -, -, -⟩ := analyzeHtml_ok_fields h
  constructor
  · rw [hi, (sortByKeyDesc_perm Issue.impact (detectedIssues d)).countP_eq,
      detectedIssues_countP_acc d]
  · rw [hr,
      (sortByKeyDesc_perm Recommendation.impact (detectedRecs d)).countP_eq,
      detectedRecs_countP_roll d]

def c10Doc : Doc := { cleanDoc with
  imgs := [{ alt := some "a chart", role := none, src := some "chart.png" },
           { alt := none, role := some "presentation", src := some "bg.png" },
           { alt := none, role := none, src := some "photo.png" }] }

def c10Res : AnalysisResult := (analyzeHtml c10Doc "page").toOption.getD dummyResult

theorem c10_amended_witness :
    c10Res.issues.countP (fun i => i.area == "Accessibility") =
      (c10Doc.imgs.filter imgMissingAlt).length ∧
    c10Res.recommendations.countP (fun x => decide (x = altRollupRec)) =
      (if (c10Doc.imgs.filter imgMissingAlt).length > 0 then 1 else 0) :=
  c10_missing_alt_amended c10Doc "page" c10Res (by decide)

def c10CexDoc : Doc := { cleanDoc with
  imgs := [{ alt := none, role := some "", src := some "decor.png" }] }

/-- Claim C10 counterexample: an image that lacks alt but carries a role
attribute (with empty value) still produces a missing-alt-text issue and
is counted toward the rollup recommendation, because the source tests
truthiness of the attribute value, not attribute presence. -/
theorem c10_counterexample :
    c10CexDoc.imgs = [{ alt := none, role := some "", src := some "decor.png" }] ∧
    (analyzeHtml c10CexDoc "page").toOption.map
      (fun r => r.issues.countP (fun i => i.area == "Accessibility")) =
      some 1 ∧
    (analyzeHtml c10CexDoc "page").toOption.map
      (fun r => r.recommendations.countP (fun x => decide (x = altRollupRec))) =
      some 1 :=
  ⟨rfl, by decide, by decide⟩

/-! ## Claim C7: the unigram score formula -/

theorem lookupA_bumpCount_self (m : List (List Char × Nat)) (k : List Char) :
    lookupA (bumpCount m k) k = some ((lookupA m k).getD 0 + 1) := by
  induction m with
  | nil => simp [bumpCount, lookupA]
  | cons p m ih =>
    obtain ⟨k2, n⟩ := p
    by_cases hk : k = k2
    · subst hk; simp [bumpCount, lookupA]
    · simp [bumpCount, lookupA, hk, ih]

theorem lookupA_bumpCount_ne (m : List (List Char × Nat)) (k k2 : List Char)
    (h : k2 ≠ k) : lookupA (bumpCount m k) k2 = lookupA m k2 := by
  induction m with
  | nil => simp [bumpCount, lookupA, h]
  | cons p m ih =>
    obtain ⟨k3, n⟩ := p
    by_cases hk : k = k3
    · subst hk; simp [bumpCount, lookupA, h]
    · simp [bumpCount, lookupA, hk, ih]

theorem wordPassStep_counts (ws : List (List Char))
    (st : List (List Char × Nat) × List (List Char × List Char))
    (w : List Char) :
    (wordPassStep ws st w).1 =
      if eligibleWord w then bumpCount st.1 (simpleStem (cleanWord w))
      else st.1 := by
  unfold wordPassStep
  dsimp only
  split_ifs <;> rfl

/-- The multiset of stems contributed by the body: one occurrence of
`simpleStem (cleanWord w)` per eligible body token `w`. -/
def bodyStemOccurrences (d : Doc) : List (List Char) :=
  ((bodyWords d).filter eligibleWord).map (fun w => simpleStem (cleanWord w))

theorem counts_foldl (raw : List (List Char)) (ws : List (List Char))
    (st : List (List Char × Nat) × List (List Char × List Char))
    (k : List Char) :
    (lookupA ((ws.foldl (wordPassStep raw) st).1) k).getD 0 =
      (lookupA st.1 k).getD 0 +
        ((ws.filter eligibleWord).map (fun w => simpleStem (cleanWord w))).count k := by
  induction ws generalizing st with
  | nil => simp
  | cons w ws ih =>
    rw [List.foldl_cons, ih, wordPassStep_counts]
    by_cases he : eligibleWord w = true
    · rw [if_pos he]
      by_cases hk : simpleStem (cleanWord w) = k
      · rw [hk, lookupA_bumpCount_self]
        simp only [Option.getD_some, List.filter_cons, he, if_true,
          List.map_cons, List.count_cons, hk]
        simp
        omega
      · rw [lookupA_bumpCount_ne _ _ _ (fun hh => hk hh.symm)]
        simp only [List.filter_cons, he, if_true, List.map_cons,
          List.count_cons, hk]
        simp [hk]
    · rw [if_neg he]
      simp only [List.filter_cons, he]
      rw [if_neg (by simp [he])]

/-- The frequency stored in `wordCounts` for a stem is exactly its number
of occurrences among the eligible body tokens. -/
theorem wordCounts_eq_count (d : Doc) (stem : List Char) :
    (lookupA (wordPass d).1 stem).getD 0 =
      (bodyStemOccurrences d).count stem := by
  unfold wordPass bodyStemOccurrences
  have := counts_foldl (bodyWords d) (bodyWords d) ([], []) stem
  simpa [lookupA] using this

theorem buildWordCand_score (d : Doc) (title : String) (meta : Option String)
    (stem : List Char) :
    (buildWordCand d title meta (wordPass d).1 (wordPass d).2 stem).score =
      (bodyStemOccurrences d).count stem
      + (if ((importantWords d title meta).map simpleStem).contains stem then 10 else 0)
      + (if ((titleWords title).map simpleStem).contains stem then 10 else 0)
      + (if ((metaWords meta).map simpleStem).contains stem then 5 else 0)
      + (if ((h1Words d).map simpleStem).contains stem then 8 else 0)
      + (if ((h2Words d).map simpleStem).contains stem then 6 else 0) := by
  unfold buildWordCand
  dsimp only
  rw [wordCounts_eq_count]
  split_ifs <;> omega

/-- Claim C7 (amended): every unigram candidate is built from a stem key
of the word-frequency table, and its score is the frequency of the stem among
the eligible body tokens, plus 10 if the stem matches any stemmed token of
the combined important-words list (title, meta description, H1 and H2
words together), plus 10 for a title match, 5 for meta description, 8 for
H1 and 6 for H2, all additive - that is, the claimed formula plus one
extra +10 combined important-words boost the claim omitted. -/
theorem c7_unigram_score_amended (d : Doc) (title : String)
    (meta : Option String) (wc : WordCand)
    (hmem : wc ∈ scoredWords d title meta) :
    ∃ stem,
      wc = buildWordCand d title meta (wordPass d).1 (wordPass d).2 stem ∧
      wc.score = (bodyStemOccurrences d).count stem
        + (if ((importantWords d title meta).map simpleStem).contains stem then 10 else 0)
        + (if ((titleWords title).map simpleStem).contains stem then 10 else 0)
        + (if ((metaWords meta).map simpleStem).contains stem then 5 else 0)
        + (if ((h1Words d).map simpleStem).contains stem then 8 else 0)
        + (if ((h2Words d).map simpleStem).contains stem then 6 else 0) := by
  unfold scoredWords at hmem
  dsimp only at hmem
  obtain ⟨stem, hs, rfl⟩ := List.mem_map.mp hmem
  exact ⟨stem, rfl, buildWordCand_score d title meta stem⟩

def c7W : WordCand :=
  (scoredWords cleanDoc cleanDoc.title cleanDoc.metaDescription).headD
    { word := [], score := 0, densityNum := 0, densityDen := 0,
      inTitle := false, inMetaDescription := false, inH1 := false,
      inH2 := false }

theorem c7_amended_witness :
    ∃ stem,
      c7W = buildWordCand cleanDoc cleanDoc.title cleanDoc.metaDescription
        (wordPass cleanDoc).1 (wordPass cleanDoc).2 stem ∧
      c7W.score = (bodyStemOccurrences cleanDoc).count stem
        + (if ((importantWords cleanDoc cleanDoc.title cleanDoc.metaDescription).map simpleStem).contains stem then 10 else 0)
        + (if ((titleWords cleanDoc.title).map simpleStem).contains stem then 10 else 0)
        + (if ((metaWords cleanDoc.metaDescription).map simpleStem).contains stem then 5 else 0)
        + (if ((h1Words cleanDoc).map simpleStem).contains stem then 8 else 0)
        + (if ((h2Words cleanDoc).map simpleStem).contains stem then 6 else 0) :=
  c7_unigram_score_amended cleanDoc cleanDoc.title cleanDoc.metaDescription
    c7W (by decide)

/-- The unigram score formula exactly as the claim words it: frequency
plus title, meta-description, H1 and H2 boosts, and nothing else.  Defined
for comparison with the score the code computes. -/
def specUnigramScore (d : Doc) (title : String) (meta : Option String)
    (stem : List Char) : Nat :=
  (bodyStemOccurrences d).count stem
  + (if ((titleWords title).map simpleStem).contains stem then 10 else 0)
  + (if ((metaWords meta).map simpleStem).contains stem then 5 else 0)
  + (if ((h1Words d).map simpleStem).contains stem then 8 else 0)
  + (if ((h2Words d).map simpleStem).contains stem then 6 else 0)

def c7Doc : Doc := { emptyBodyDoc with
  title := "Running Fast Today",
  bodyText := "running running running running" }

/-- Claim C7 counterexample: with title "Running Fast Today" and body
repeating "running" four times, the code scores the sole candidate 24
(frequency 4, +10 combined important-words boost, +10 title boost), while
the claimed formula yields 14: the claim misses the extra +10 boost for
matching the combined important-words list. -/
theorem c7_counterexample :
    (scoredWords c7Doc c7Doc.title c7Doc.metaDescription).map WordCand.score
      = [24] ∧
    specUnigramScore c7Doc c7Doc.title c7Doc.metaDescription
      (simpleStem "running".toList) = 14 ∧ (24 : Nat) ≠ 14 :=
  ⟨by decide, by decide, by decide⟩

/-! ## Claim C8 -/

/-- Claim C8: the stemmer strips a suffix by a fixed ordered rule table,
and the function it computes agrees, on every input word, with the
longest-match-first reading of that table over the endings ment, tion,
ing, ed, er, ly, es, s with only the first matching rule applied. -/
theorem c8_stemmer_longest_match_first (w : List Char) :
    simpleStem w = specStem w :=
  stem_chains_eq (lowerW w)

end Seo
